import Mathlib

/-!
# Verification of the MicroPython ESP32 button / event-detection library

A shallow embedding, in Lean 4, of the decision logic of the
`Chen-HR/MicroPython_ESP32_lib` repository, together with theorems settling
the frozen specification claims.

Modelling conventions, used throughout:

* A pin is embedded as the stream of its instantaneous reads,
  `pin : Nat → Nat`; each `pin.value()` call in the Python source consumes
  the next element of the stream (explicit read index `idx`).
* The monotonic clock is the stream `clock : Nat → Int`; each
  `Time.current_ms()` call consumes the next element.
* `Wait.sync_ms` / `Sleep.sync_ms` and their `async` twins only let time
  pass; they are observationally silent here, so the synchronous and
  asynchronous variants of a source function whose bodies differ only in
  the flavour of sleep collapse to the same pure function.
* Potentially unbounded `while` loops are run on fuel; `none` means the
  fuel was exhausted with the loop still running (so `none` after `n`
  units of fuel certifies that the source loop performs more than `n`
  iterations on that input).
* A warning emitted through the `Logging` module is counted, not
  formatted: functions that can warn return the number of warning-level
  log lines next to their result.
-/

/-! ## Debounce filters
    Source: `old/Y2025D1014T1155/Digital.py` (`countFiltering_sync`,
    `countFiltering_async`, `isChangedStably_sync`, `isChangedStably_async`);
    the current package's `Device/Button/_digital_signal_filters` /
    `Utils/DigitalFilters` module re-exports these same algorithms to
    `RealTimeButton.py` and `Device/Button.py`. -/

/-- One iteration of the `countFiltering` loop body
(`Digital.py` lines 79-82):

    if pin.value() == target_signal.__int__():
      cnt = cnt + 1 if cnt >= 0 else 1
    else:
      cnt = cnt - 1 if cnt <= 0 else -1

Python parses the conditional expressions as
`cnt = ((cnt + 1) if (cnt >= 0) else 1)` and
`cnt = ((cnt - 1) if (cnt <= 0) else -1)`. -/
def countFiltering_step (target : Nat) (cnt : Int) (reading : Nat) : Int :=
  if reading = target then
    (if 0 ≤ cnt then cnt + 1 else 1)
  else
    (if cnt ≤ 0 then cnt - 1 else -1)

/-- The `while -threshold < cnt < threshold` loop of `countFiltering`
(`Digital.py` lines 77-83), on fuel.  The result is the final counter
together with the next unread index of the pin stream; `none` means the
loop is still running after `fuel` samples. -/
def countFilteringAux (pin : Nat → Nat) (target : Nat) (threshold : Int) :
    Int → Nat → Nat → Option (Int × Nat)
  | cnt, idx, 0 =>
      if -threshold < cnt ∧ cnt < threshold then none else some (cnt, idx)
  | cnt, idx, fuel + 1 =>
      if -threshold < cnt ∧ cnt < threshold then
        countFilteringAux pin target threshold
          (countFiltering_step target cnt (pin idx)) (idx + 1) fuel
      else some (cnt, idx)

/-- `countFiltering_sync(pin, target_signal, threshold, interval_ms)`
(`Digital.py` lines 66-84): run the counter loop from `cnt = 0` and return
`cnt >= threshold`. -/
def countFiltering_sync (pin : Nat → Nat) (target : Nat) (threshold : Int)
    (fuel : Nat) : Option Bool :=
  (countFilteringAux pin target threshold 0 0 fuel).map
    (fun p => decide (threshold ≤ p.1))

/-- `countFiltering_async` (`Digital.py` lines 86-104): the body is
identical to `countFiltering_sync` except that its sampling delay is an
awaited sleep, which the embedding erases. -/
def countFiltering_async (pin : Nat → Nat) (target : Nat) (threshold : Int)
    (fuel : Nat) : Option Bool :=
  countFiltering_sync pin target threshold fuel

/-- The `while pin.value() == start_signal` wait loop of
`isChangedStably_sync` (`Digital.py` lines 121-122), on fuel.  Each
condition check consumes one read; on exit the read that broke the loop
has been consumed, so the next unread index is returned. -/
def waitWhileAt (pin : Nat → Nat) (startv : Nat) : Nat → Nat → Option Nat
  | idx, 0 => if pin idx = startv then none else some (idx + 1)
  | idx, fuel + 1 =>
      if pin idx = startv then waitWhileAt pin startv (idx + 1) fuel
      else some (idx + 1)

/-- `isChangedStably_sync(pin, start_signal, end_signal, threshold,
interval_ms)` (`Digital.py` lines 106-123), started at read index `idx`:
return `False` at once if the pin is not at `start`; otherwise wait while
it stays at `start`, then demand a `countFiltering` verdict at `endv`.
The `async` variant (lines 125-142) differs only in sleep flavour. -/
def isChangedStablyFrom (pin : Nat → Nat) (startv endv : Nat)
    (threshold : Int) (idx : Nat) (fuel : Nat) : Option (Bool × Nat) :=
  if pin idx ≠ startv then some (false, idx + 1)
  else
    match waitWhileAt pin startv (idx + 1) fuel with
    | none => none
    | some idx' =>
        (countFilteringAux pin endv threshold 0 idx' fuel).map
          (fun p => (decide (threshold ≤ p.1), p.2))

/-! ## RealTimeButton event detectors
    Source: `micropython_esp32_lib/Device/Button/RealTimeButton.py`.
    `Button.isStablyPressed/Released_sync` route to `countFiltering_sync`
    with the button's `threshold`/`interval_ms` (lines 61-70), and
    `Button.isToStablyPressed/Released_sync` route to `isChangedStably_sync`
    (lines 158-167); the `async` twins are identical modulo sleep flavour. -/

/-- `Button.isStablyPressed_sync` / `isStablyReleased_sync` at read index
`idx`: a fresh `countFiltering` verdict for the given target signal,
returning the verdict and the next unread index. -/
def isStablyAtFrom (pin : Nat → Nat) (target : Nat) (threshold : Int)
    (idx fuel : Nat) : Option (Bool × Nat) :=
  (countFilteringAux pin target threshold 0 idx fuel).map
    (fun p => (decide (threshold ≤ p.1), p.2))

/-! ### OnLongPressEvent
    The loop of `OnLongPressEvent.monitor_sync` (lines 250-260) is modelled
    over the streams of its collaborator calls: `pressed k` is the verdict
    of the `k`-th `isStablyPressed` call inside the loop and `clock j` the
    value of the `j`-th `Time.current_ms()` call (`j = 0` computes the
    deadline `endTime = clock 0 + timeout`, iteration `k` then reads
    `clock (k+1)`). -/

/-- The `while not outPressTime` loop of `OnLongPressEvent.monitor_sync`
(lines 252-258): at iteration `k`, return `False` if the button is not
stably pressed; otherwise sleep one poll interval and set
`outPressTime = Time.current_ms() >= endTime`, returning `True` once the
deadline is reached. -/
def longPressLoop (timeout : Int) (pressed : Nat → Bool) (clock : Nat → Int) :
    Nat → Nat → Option Bool
  | _, 0 => none
  | k, fuel + 1 =>
      if pressed k = false then some false
      else if clock 0 + timeout ≤ clock (k + 1) then some true
      else longPressLoop timeout pressed clock (k + 1) fuel

/-- `OnLongPressEvent.monitor_sync` (lines 246-262): warn and return
`False` on a non-positive `timeout_ms`; otherwise, if a to-stably-pressed
transition was detected (`toPressed`), run the deadline loop, else return
`False`.  The second component counts warning-level log lines. -/
def OnLongPressEvent.monitor_sync (timeout : Int) (toPressed : Bool)
    (pressed : Nat → Bool) (clock : Nat → Int) (fuel : Nat) :
    Option Bool × Nat :=
  if timeout ≤ 0 then (some false, 1)
  else if toPressed then (longPressLoop timeout pressed clock 0 fuel, 0)
  else (some false, 0)

/-- `OnLongPressEvent.monitor_async` (lines 263-279): the body is the
sync body with awaited collaborator calls, which the embedding erases. -/
def OnLongPressEvent.monitor_async (timeout : Int) (toPressed : Bool)
    (pressed : Nat → Bool) (clock : Nat → Int) (fuel : Nat) :
    Option Bool × Nat :=
  OnLongPressEvent.monitor_sync timeout toPressed pressed clock fuel

/-! ### OnMultiClickEvent
    Modelled at full pin-stream granularity, because the sync and async
    bodies differ in which filter the first release-wait polls. -/

/-- The shared wait-loop shape of `OnMultiClickEvent`
(`while not <check>: sleep; if Time.current_ms() >= endTime: return False`,
lines 297-301, 304-308 and 309-313): `check p f` is the polled predicate
started at pin index `p` with fuel `f`.  Result `true` means the loop
exited normally; `false` means the deadline fired (the monitor returns
`False`); the pin and clock indices are threaded through. -/
def mcAwait (check : Nat → Nat → Option (Bool × Nat)) (clock : Nat → Int)
    (endTime : Int) : Nat → Nat → Nat → Option (Bool × Nat × Nat)
  | _, _, 0 => none
  | p, c, fuel + 1 =>
      match check p (fuel + 1) with
      | none => none
      | some (true, p') => some (true, p', c)
      | some (false, p') =>
          if endTime ≤ clock c then some (false, p', c + 1)
          else mcAwait check clock endTime p' (c + 1) fuel

/-- The `while current_clicks < self.times` loop of
`OnMultiClickEvent.monitor_sync` (lines 303-319): per click, wait for the
next to-stably-pressed transition, then for the to-stably-released
transition (each with the deadline escape), increment the click counter
and sleep once more; on normal exit return
`current_clicks == self.times`. -/
def mcClicksLoop (checkPress checkRelease : Nat → Nat → Option (Bool × Nat))
    (clock : Nat → Int) (endTime : Int) (times : Int) :
    Int → Nat → Nat → Nat → Option (Bool × Nat × Nat)
  | clicks, p, c, 0 =>
      if clicks < times then none else some (decide (clicks = times), p, c)
  | clicks, p, c, fuel + 1 =>
      if clicks < times then
        match mcAwait checkPress clock endTime p c (fuel + 1) with
        | none => none
        | some (false, p', c') => some (false, p', c')
        | some (true, p', c') =>
            match mcAwait checkRelease clock endTime p' c' (fuel + 1) with
            | none => none
            | some (false, p2, c2) => some (false, p2, c2)
            | some (true, p2, c2) =>
                mcClicksLoop checkPress checkRelease clock endTime times
                  (clicks + 1) p2 c2 fuel
      else some (decide (clicks = times), p, c)

/-- `OnMultiClickEvent.monitor_sync` (lines 291-321): guard on
non-positive `times`/`timeout_ms` (warn, return `False`); detect a
to-stably-pressed transition; set `endTime = Time.current_ms() +
timeout_ms`; wait for the first release with
`while not self.object.isStablyReleased_sync()` (line 297); then run the
click-counting loop from `current_clicks = 1`.  `rel`/`prs` are the
released/pressed signal values and `t` the button's threshold; the second
component counts warning-level log lines. -/
def OnMultiClickEvent.monitor_sync (times timeout : Int) (pin : Nat → Nat)
    (clock : Nat → Int) (rel prs : Nat) (t : Int) (fuel : Nat) :
    Option Bool × Nat :=
  if times ≤ 0 ∨ timeout ≤ 0 then (some false, 1)
  else
    match isChangedStablyFrom pin rel prs t 0 fuel with
    | none => (none, 0)
    | some (false, _) => (some false, 0)
    | some (true, p1) =>
        match mcAwait (fun p f => isStablyAtFrom pin rel t p f) clock
            (clock 0 + timeout) p1 1 fuel with
        | none => (none, 0)
        | some (false, _, _) => (some false, 0)
        | some (true, p2, c2) =>
            match mcClicksLoop (fun p f => isChangedStablyFrom pin rel prs t p f)
                (fun p f => isChangedStablyFrom pin prs rel t p f) clock
                (clock 0 + timeout) times 1 p2 c2 fuel with
            | none => (none, 0)
            | some (b, _, _) => (some b, 0)

/-- `OnMultiClickEvent.monitor_async` (lines 322-352): identical to the
sync body except that the first release-wait polls
`self.object.isToStablyReleased_async()` (line 328) where the sync body
polls `self.object.isStablyReleased_sync()` (line 297). -/
def OnMultiClickEvent.monitor_async (times timeout : Int) (pin : Nat → Nat)
    (clock : Nat → Int) (rel prs : Nat) (t : Int) (fuel : Nat) :
    Option Bool × Nat :=
  if times ≤ 0 ∨ timeout ≤ 0 then (some false, 1)
  else
    match isChangedStablyFrom pin rel prs t 0 fuel with
    | none => (none, 0)
    | some (false, _) => (some false, 0)
    | some (true, p1) =>
        match mcAwait (fun p f => isChangedStablyFrom pin prs rel t p f) clock
            (clock 0 + timeout) p1 1 fuel with
        | none => (none, 0)
        | some (false, _, _) => (some false, 0)
        | some (true, p2, c2) =>
            match mcClicksLoop (fun p f => isChangedStablyFrom pin rel prs t p f)
                (fun p f => isChangedStablyFrom pin prs rel t p f) clock
                (clock 0 + timeout) times 1 p2 c2 fuel with
            | none => (none, 0)
            | some (b, _, _) => (some b, 0)

/-! ## Button state machines
    Source: `micropython_esp32_lib/Device/Button.py`. -/

/-- The `State` / `STATE` enumeration (`Device/Button.py` lines 28-35). -/
inductive BtnState
  | BOUNCING
  | RELEASED
  | PRESSED
deriving DecidableEq, Repr

/-- Classification of one raw pin read against the two signal values, as
in `StateDebounceButton.getState` (lines 114-123): released first, then
pressed, otherwise bouncing. -/
def classifyRead (rel prs v : Nat) : BtnState :=
  if v = rel then .RELEASED else if v = prs then .PRESSED else .BOUNCING

/-- The mutable state of a `StateDebounceButton`: its cached
`_last_state` (line 113) and the next unread pin index. -/
structure SDB where
  last : BtnState
  idx : Nat
deriving DecidableEq, Repr

/-- `StateDebounceButton.getState` (lines 114-123): read the pin once,
cache and return the classified state. -/
def StateDebounceButton.getState (pin : Nat → Nat) (rel prs : Nat)
    (s : SDB) : BtnState × SDB :=
  (classifyRead rel prs (pin s.idx), ⟨classifyRead rel prs (pin s.idx), s.idx + 1⟩)

/-- `StateDebounceButton.isPressed` (lines 127-129): refresh via
`getState` and compare with `PRESSED`. -/
def StateDebounceButton.isPressed (pin : Nat → Nat) (rel prs : Nat)
    (s : SDB) : Bool × SDB :=
  ((StateDebounceButton.getState pin rel prs s).1 == .PRESSED,
    (StateDebounceButton.getState pin rel prs s).2)

/-- First statement of `StateDebounceButton.isToPressed` (line 138):
refresh the cached state when it is `BOUNCING`. -/
def StateDebounceButton.refreshIfBouncing (pin : Nat → Nat) (rel prs : Nat)
    (s : SDB) : SDB :=
  if s.last == .BOUNCING then (StateDebounceButton.getState pin rel prs s).2 else s

/-- Remaining statements of `StateDebounceButton.isToPressed` (lines
139-143): if the cache says `RELEASED`, sleep one interval and report
whether the button now reads pressed (which also refreshes the cache);
otherwise report `False`. -/
def StateDebounceButton.isToPressedCheck (pin : Nat → Nat) (rel prs : Nat)
    (s1 : SDB) : Bool × SDB :=
  if s1.last == .RELEASED then StateDebounceButton.isPressed pin rel prs s1
  else (false, s1)

/-- `StateDebounceButton.isToPressed` (lines 137-143), the composition of
the two statements above. -/
def StateDebounceButton.isToPressed (pin : Nat → Nat) (rel prs : Nat)
    (s : SDB) : Bool × SDB :=
  StateDebounceButton.isToPressedCheck pin rel prs
    (StateDebounceButton.refreshIfBouncing pin rel prs s)

/-- Number of `True` answers in `m` consecutive
`StateDebounceButton.isToPressed` calls from state `s`. -/
def sdbToPressedCount (pin : Nat → Nat) (rel prs : Nat) : SDB → Nat → Nat
  | _, 0 => 0
  | s, m + 1 =>
      (if (StateDebounceButton.isToPressed pin rel prs s).1 then 1 else 0) +
        sdbToPressedCount pin rel prs (StateDebounceButton.isToPressed pin rel prs s).2 m

/-- `ImmediateDebounceButton.isToPressed` (lines 81-85): one raw
released-read, a sleep, then one raw pressed-read; stateless apart from
the advancing read index. -/
def ImmediateDebounceButton.isToPressed (pin : Nat → Nat) (rel prs : Nat)
    (idx : Nat) : Bool × Nat :=
  if pin idx = rel then
    (if pin (idx + 1) = prs then (true, idx + 2) else (false, idx + 2))
  else (false, idx + 1)

/-- Number of `True` answers in `m` consecutive
`ImmediateDebounceButton.isToPressed` calls from read index `idx`. -/
def idbToPressedCount (pin : Nat → Nat) (rel prs : Nat) : Nat → Nat → Nat
  | _, 0 => 0
  | idx, m + 1 =>
      let r := ImmediateDebounceButton.isToPressed pin rel prs idx
      (if r.1 then 1 else 0) + idbToPressedCount pin rel prs r.2 m

/-- Number of `True` answers in `m` consecutive
`CountFilteringImmediateDebounceButton.isToPressed` calls
(lines 107-108: each call is `isChangedStably_async(pin, released,
pressed, threshold, interval)`), each run with fuel `fuel`; a fuel-out
call ends the run. -/
def cfibToPressedCount (pin : Nat → Nat) (rel prs : Nat) (t : Int)
    (fuel : Nat) : Nat → Nat → Nat
  | _, 0 => 0
  | idx, m + 1 =>
      match isChangedStablyFrom pin rel prs t idx fuel with
      | none => 0
      | some (b, idx') =>
          (if b then 1 else 0) + cfibToPressedCount pin rel prs t fuel idx' m

/-- Events on the `_toPressed_flag` of an
`InterruptDrivenStateDebounceButton` (a `Flag.BooleanFlag`,
`Utils/Flag.py` lines 13-21): `set` is `activate()` from the debounce
handler (line 190), `clear` is the auto-`deactivate()` two intervals
later (line 192), `query` is an `isToPressed` call (lines 210-214), which
consumes the flag: if the flag is up it is taken down and `True` is
returned. -/
inductive FlagEvent
  | set
  | clear
  | query
deriving DecidableEq, Repr

/-- Number of `True` answers among the `query` events of a flag-event
trace, starting from flag value `b`. -/
def flagQueryTrues : Bool → List FlagEvent → Nat
  | _, [] => 0
  | _, .set :: es => flagQueryTrues true es
  | _, .clear :: es => flagQueryTrues false es
  | b, .query :: es => if b then 1 + flagQueryTrues false es else flagQueryTrues b es

/-- Number of `set` events in a flag-event trace. -/
def flagSets : List FlagEvent → Nat
  | [] => 0
  | .set :: es => 1 + flagSets es
  | _ :: es => flagSets es

/-- The fields of an `InterruptDrivenStateDebounceButton` relevant to its
observable state, with the values its constructor assigns
(`Device/Button.py` line 113 via `StateDebounceButton.__init__`, and
lines 155-161): both cached states start `BOUNCING` and all flags start
down.  (The constructor in fact raises before completing, see the claim
about `SIGNAL.inverse`; these are the values its assignments write.) -/
structure IDSButton where
  last : BtnState
  current : BtnState
  irq_flag : Bool
  toReleased_flag : Bool
  toPressed_flag : Bool
deriving DecidableEq, Repr

/-- `InterruptDrivenStateDebounceButton.__init__` field initialization
(lines 151-161). -/
def InterruptDrivenStateDebounceButton.initState : IDSButton :=
  { last := .BOUNCING, current := .BOUNCING, irq_flag := false,
    toReleased_flag := false, toPressed_flag := false }

/-- `InterruptDrivenStateDebounceButton.getState` (lines 193-195):
sleep one millisecond and return `_current_state`. -/
def InterruptDrivenStateDebounceButton.getState (s : IDSButton) : BtnState :=
  s.current

/-- `InterruptDrivenStateDebounceButton.isReleased` (lines 196-198). -/
def InterruptDrivenStateDebounceButton.isReleased (s : IDSButton) : Bool :=
  s.current == .RELEASED

/-! ## Listener / handler dispatch
    Source: `micropython_esp32_lib/Utils/EventHandler.py` and
    `Utils/ListenerHandler.py`. -/

/-- Observable fate of a poll loop after a bounded number of iterations:
still polling (about to run iteration `next`), or terminated because an
exception escaped at iteration `atIter`. -/
inductive LoopOutcome
  | running (next : Nat)
  | crashed (atIter : Nat)
deriving DecidableEq, Repr

/-- `EventHandler.monitor_sync` (`Utils/EventHandler.py` lines 74-80):
`while self.enabled: if self.event.monitor_sync(): self.handler.handle_sync()`.
`event k` is the monitor verdict and `handler k` the handler's outcome at
iteration `k`; there is no `try`/`except` around the handler call, so a
raised exception propagates and the loop terminates.  `monitor_async`
(lines 81-87) is identical modulo `await`. -/
def EventHandler.monitor_syncRun (event : Nat → Bool)
    (handler : Nat → Except Unit Unit) : Nat → Nat → LoopOutcome
  | k, 0 => .running k
  | k, fuel + 1 =>
      if event k then
        match handler k with
        | .error _ => .crashed k
        | .ok _ => EventHandler.monitor_syncRun event handler (k + 1) fuel
      else EventHandler.monitor_syncRun event handler (k + 1) fuel

/-- `AsyncListenerSyncHandler.listen` (`Utils/ListenerHandler.py` lines
181-185): when the listener fires, the handler is spawned on a fresh
thread (`thread.start_new_thread`), so the listen loop itself continues
regardless of the handler's fate; the second component counts spawned
handler threads. -/
def AsyncListenerSyncHandler.listenRun (listener : Nat → Bool) :
    Nat → Nat → LoopOutcome × Nat
  | k, 0 => (.running k, 0)
  | k, fuel + 1 =>
      ((AsyncListenerSyncHandler.listenRun listener (k + 1) fuel).1,
        (if listener k then 1 else 0) +
          (AsyncListenerSyncHandler.listenRun listener (k + 1) fuel).2)

/-- The mutable binding state of an `EventHandler`
(`Utils/EventHandler.py` lines 56-73): the bound event and handler
(opaque here) and the `enabled` flag. -/
structure EventHandlerState (ε η : Type) where
  event : ε
  handler : η
  enabled : Bool

/-- `EventHandler.stop` (lines 100-103): log and clear `enabled`;
nothing else is touched. -/
def EventHandler.stop {ε η : Type} (s : EventHandlerState ε η) :
    EventHandlerState ε η :=
  { s with enabled := false }

/-- The mutable binding state of a `ListenerHandler`
(`Utils/ListenerHandler.py` lines 59-76): listener and handler (opaque),
the polling period and the `active` flag. -/
structure ListenerHandlerState (l h : Type) where
  listener : l
  handler : h
  period_ms : Int
  active : Bool

/-- `ListenerHandler.deactivate` (lines 84-85): clear `active`;
nothing else is touched. -/
def ListenerHandler.deactivate {l h : Type} (s : ListenerHandlerState l h) :
    ListenerHandlerState l h :=
  { s with active := false }

/-! ## Signal constants and button construction
    Source: `micropython_esp32_lib/System/Digital.py` and
    `Device/Button.py`. -/

/-- Python error classes that the modelled code can raise. -/
inductive PyError
  | attributeError
deriving DecidableEq, Repr

/-- Attribute lookup of `inverse` on the class `SIGNAL`
(`System/Digital.py` lines 111-114): the class body defines exactly the
two constants `HIGH = Signal("HIGH", 1)` and `LOW = Signal("LOW", 0)`;
neither it, nor `Signal` (lines 94-110), nor their base `Enum.Unit`
(`Utils/Enum.py` lines 11-36) defines an `inverse` member, and no other
module of the repository assigns one, so the lookup finds nothing. -/
def SIGNAL.attr_inverse : Option (Nat → Nat) :=
  none

/-- The fields `BaseButton.__init__` assigns (`Device/Button.py` lines
38-43). -/
structure BaseButtonFields where
  pin : Nat
  released_signal : Nat
  pressed_signal : Nat
  interval_ms : Int
deriving DecidableEq, Repr

/-- `BaseButton.__init__` (lines 38-43): line 41 evaluates
`Digital.SIGNAL.inverse(released_signal)`, which first resolves the
attribute `inverse` on `SIGNAL`; the failed lookup raises
`AttributeError` before the remaining fields are assigned. -/
def BaseButton.init (pin rel : Nat) (interval_ms : Int) :
    Except PyError BaseButtonFields :=
  match SIGNAL.attr_inverse with
  | none => .error .attributeError
  | some inv =>
      .ok { pin := pin, released_signal := rel, pressed_signal := inv rel,
            interval_ms := interval_ms }

/-- `ImmediateDebounceButton.__init__` (lines 62-63): defers to
`BaseButton.__init__` first. -/
def ImmediateDebounceButton.init (pin rel : Nat) (interval_ms : Int) :
    Except PyError BaseButtonFields :=
  BaseButton.init pin rel interval_ms

/-- `CountFilteringImmediateDebounceButton.__init__` (lines 88-90):
defers to `ImmediateDebounceButton.__init__` first, then records the
threshold. -/
def CountFilteringImmediateDebounceButton.init (pin rel : Nat)
    (interval_ms threshold : Int) :
    Except PyError (BaseButtonFields × Int) := do
  let b ← ImmediateDebounceButton.init pin rel interval_ms
  return (b, threshold)

/-- `StateDebounceButton.__init__` (lines 111-113): defers to
`BaseButton.__init__` first, then sets `_last_state = BOUNCING`. -/
def StateDebounceButton.init (pin rel : Nat) (interval_ms : Int) :
    Except PyError (BaseButtonFields × BtnState) := do
  let b ← BaseButton.init pin rel interval_ms
  return (b, .BOUNCING)

/-- `InterruptDrivenStateDebounceButton.__init__` (lines 151-161):
defers to `StateDebounceButton.__init__` first, then initializes its own
state and flags. -/
def InterruptDrivenStateDebounceButton.init (pin rel : Nat)
    (interval_ms : Int) :
    Except PyError (BaseButtonFields × IDSButton) := do
  let b ← StateDebounceButton.init pin rel interval_ms
  return (b.1, { last := b.2, current := .BOUNCING, irq_flag := false,
                 toReleased_flag := false, toPressed_flag := false })

/-! ## Counter lemmas for the count filter -/

/-- Stepping the counter from strictly inside `(-t, t)` keeps it inside
`[-t, t]`. -/
lemma countFiltering_step_mem (target : Nat) (t c : Int) (r : Nat)
    (ht : 0 < t) (h1 : -t < c) (h2 : c < t) :
    -t ≤ countFiltering_step target c r ∧ countFiltering_step target c r ≤ t := by
  unfold countFiltering_step
  split <;> split <;> omega

/-- Whenever the `countFiltering` loop returns, the final counter is
exactly `t` or exactly `-t`. -/
lemma countFilteringAux_exit (pin : Nat → Nat) (target : Nat) (t : Int)
    (ht : 0 < t) :
    ∀ (fuel : Nat) (cnt : Int) (idx : Nat) (c : Int) (i : Nat),
      -t ≤ cnt → cnt ≤ t →
      countFilteringAux pin target t cnt idx fuel = some (c, i) →
      c = t ∨ c = -t := by
  intro fuel
  induction fuel with
  | zero =>
    intro cnt idx c i h1 h2 h
    simp only [countFilteringAux] at h
    split at h
    · exact absurd h (by simp)
    · simp only [Option.some.injEq, Prod.mk.injEq] at h
      omega
  | succ fuel ih =>
    intro cnt idx c i h1 h2 h
    simp only [countFilteringAux] at h
    split at h
    · rename_i hg
      have hm := countFiltering_step_mem target t cnt (pin idx) ht hg.1 hg.2
      exact ih _ _ _ _ hm.1 hm.2 h
    · simp only [Option.some.injEq, Prod.mk.injEq] at h
      omega

/-- On a stream that matches the target from `idx` on, a nonnegative
counter climbs straight to `+t`. -/
lemma countFilteringAux_const_match_nonneg (pin : Nat → Nat) (target : Nat)
    (t : Int) (ht : 0 < t) :
    ∀ (fuel : Nat) (cnt : Int) (idx : Nat),
      0 ≤ cnt → cnt ≤ t → (∀ n, idx ≤ n → pin n = target) →
      (t - cnt).toNat ≤ fuel →
      ∃ i, countFilteringAux pin target t cnt idx fuel = some (t, i) := by
  intro fuel
  induction fuel with
  | zero =>
    intro cnt idx h0 h1 hc hf
    have hct : cnt = t := by omega
    subst hct
    refine ⟨idx, ?_⟩
    simp only [countFilteringAux]
    rw [if_neg (by omega)]
  | succ fuel ih =>
    intro cnt idx h0 h1 hc hf
    by_cases hct : cnt = t
    · subst hct
      refine ⟨idx, ?_⟩
      simp only [countFilteringAux]
      rw [if_neg (by omega)]
    · simp only [countFilteringAux]
      rw [if_pos (by omega)]
      rw [hc idx le_rfl]
      have hstep : countFiltering_step target cnt target = cnt + 1 := by
        unfold countFiltering_step
        rw [if_pos rfl, if_pos h0]
      rw [hstep]
      exact ih (cnt + 1) (idx + 1) (by omega) (by omega)
        (fun n hn => hc n (by omega)) (by omega)

/-- On a stream that mismatches the target from `idx` on, a nonpositive
counter sinks straight to `-t`. -/
lemma countFilteringAux_const_mismatch_nonpos (pin : Nat → Nat) (target v : Nat)
    (t : Int) (ht : 0 < t) (hv : v ≠ target) :
    ∀ (fuel : Nat) (cnt : Int) (idx : Nat),
      cnt ≤ 0 → -t ≤ cnt → (∀ n, idx ≤ n → pin n = v) →
      (t + cnt).toNat ≤ fuel →
      ∃ i, countFilteringAux pin target t cnt idx fuel = some (-t, i) := by
  intro fuel
  induction fuel with
  | zero =>
    intro cnt idx h0 h1 hc hf
    have hct : cnt = -t := by omega
    subst hct
    refine ⟨idx, ?_⟩
    simp only [countFilteringAux]
    rw [if_neg (by omega)]
  | succ fuel ih =>
    intro cnt idx h0 h1 hc hf
    by_cases hct : cnt = -t
    · subst hct
      refine ⟨idx, ?_⟩
      simp only [countFilteringAux]
      rw [if_neg (by omega)]
    · simp only [countFilteringAux]
      rw [if_pos (by omega)]
      rw [hc idx le_rfl]
      have hstep : countFiltering_step target cnt v = cnt - 1 := by
        unfold countFiltering_step
        rw [if_neg hv, if_pos h0]
      rw [hstep]
      exact ih (cnt - 1) (idx + 1) (by omega) (by omega)
        (fun n hn => hc n (by omega)) (by omega)

/-- Settling, matching case: from any live counter, a stream constantly at
the target reaches the `+t` verdict within `t` further samples (one sample
to snap a negative counter to `1`, then a climb of at most `t - 1`). -/
lemma countFilteringAux_const_match (pin : Nat → Nat) (target : Nat)
    (t : Int) (ht : 0 < t) :
    ∀ (fuel : Nat) (cnt : Int) (idx : Nat),
      -t < cnt → cnt ≤ t → (∀ n, idx ≤ n → pin n = target) →
      t.toNat ≤ fuel →
      ∃ i, countFilteringAux pin target t cnt idx fuel = some (t, i) := by
  intro fuel cnt idx h1 h2 hc hf
  rcases le_or_lt 0 cnt with h0 | h0
  · exact countFilteringAux_const_match_nonneg pin target t ht fuel cnt idx h0 h2 hc
      (by omega)
  · obtain ⟨fuel', rfl⟩ : ∃ f, fuel = f + 1 := ⟨fuel - 1, by omega⟩
    simp only [countFilteringAux]
    rw [if_pos (by omega)]
    rw [hc idx le_rfl]
    have hstep : countFiltering_step target cnt target = 1 := by
      unfold countFiltering_step
      rw [if_pos rfl, if_neg (by omega)]
    rw [hstep]
    exact countFilteringAux_const_match_nonneg pin target t ht fuel' 1 (idx + 1)
      (by omega) (by omega) (fun n hn => hc n (by omega)) (by omega)

/-- Settling, mismatching case: from any live counter, a stream constantly
off the target reaches the `-t` verdict within `t` further samples. -/
lemma countFilteringAux_const_mismatch (pin : Nat → Nat) (target v : Nat)
    (t : Int) (ht : 0 < t) (hv : v ≠ target) :
    ∀ (fuel : Nat) (cnt : Int) (idx : Nat),
      -t ≤ cnt → cnt < t → (∀ n, idx ≤ n → pin n = v) →
      t.toNat ≤ fuel →
      ∃ i, countFilteringAux pin target t cnt idx fuel = some (-t, i) := by
  intro fuel cnt idx h1 h2 hc hf
  rcases le_or_lt cnt 0 with h0 | h0
  · exact countFilteringAux_const_mismatch_nonpos pin target v t ht hv fuel cnt idx h0 h1
      hc (by omega)
  · obtain ⟨fuel', rfl⟩ : ∃ f, fuel = f + 1 := ⟨fuel - 1, by omega⟩
    simp only [countFilteringAux]
    rw [if_pos (by omega)]
    rw [hc idx le_rfl]
    have hstep : countFiltering_step target cnt v = -1 := by
      unfold countFiltering_step
      rw [if_neg hv, if_neg (by omega)]
    rw [hstep]
    exact countFilteringAux_const_mismatch_nonpos pin target v t ht hv fuel' (-1) (idx + 1)
      (by omega) (by omega) (fun n hn => hc n (by omega)) (by omega)

/-- Settling: if the pin stream is constant from read `k` on, the
`countFiltering` loop returns within `k + t` samples wherever it starts. -/
lemma countFilteringAux_settles (pin : Nat → Nat) (target v : Nat) (t : Int)
    (k : Nat) (ht : 0 < t) (hc : ∀ n, k ≤ n → pin n = v) :
    ∀ (fuel : Nat) (cnt : Int) (idx : Nat),
      -t ≤ cnt → cnt ≤ t → (k - idx) + t.toNat ≤ fuel →
      (countFilteringAux pin target t cnt idx fuel).isSome := by
  intro fuel
  induction fuel with
  | zero =>
    intro cnt idx h1 h2 hf
    omega
  | succ fuel ih =>
    intro cnt idx h1 h2 hf
    by_cases hg : -t < cnt ∧ cnt < t
    · by_cases hik : idx < k
      · simp only [countFilteringAux]
        rw [if_pos hg]
        have hm := countFiltering_step_mem target t cnt (pin idx) ht hg.1 hg.2
        exact ih _ _ hm.1 hm.2 (by omega)
      · by_cases hvt : v = target
        · have hc2 : ∀ n, idx ≤ n → pin n = target :=
            fun n hn => hvt ▸ hc n (by omega)
          obtain ⟨i, hi⟩ := countFilteringAux_const_match pin target t ht (fuel + 1)
            cnt idx hg.1 h2 hc2 (by omega)
          rw [hi]
          rfl
        · have hc2 : ∀ n, idx ≤ n → pin n = v :=
            fun n hn => hc n (by omega)
          obtain ⟨i, hi⟩ := countFilteringAux_const_mismatch pin target v t ht hvt (fuel + 1)
            cnt idx h1 hg.2 hc2 (by omega)
          rw [hi]
          rfl
    · simp only [countFilteringAux]
      rw [if_neg hg]
      rfl

/-! ## Claims C1 and C2: the count filter -/

/-- C1, counterexample.  With threshold `t = 2` and the strictly
alternating pin stream `1,0,1,0,...` (reading `1` is the target), the
`countFiltering` loop has not returned after `2t = 4` samples: the counter
bounces `1, -1, 1, -1` forever, so the claimed universal `2t`-sample
termination bound is false (for both the sync and the async variant). -/
theorem countFiltering_two_t_bound_fails :
    countFiltering_sync (fun n => if n % 2 = 0 then 1 else 0) 1 2 4 = none ∧
    countFiltering_async (fun n => if n % 2 = 0 then 1 else 0) 1 2 4 = none := by
  exact ⟨by decide, by decide⟩

/-- C1, amended.  `countFiltering` does not terminate within `2t` samples
on arbitrary input; what holds is: for every threshold `t > 0`, if the pin
stream is constant from sample `k` on, the function terminates within
`k + t` samples (in particular, within `t` samples on a settled line), and
on a constant stream the verdict is exactly whether that constant level is
the target.  On never-settling input the loop can run forever. -/
theorem countFiltering_terminates_on_settled_input :
    (∀ (pin : Nat → Nat) (target v : Nat) (t : Int) (k fuel : Nat),
        0 < t → (∀ n, k ≤ n → pin n = v) → k + t.toNat ≤ fuel →
        (countFiltering_sync pin target t fuel).isSome ∧
        (countFiltering_async pin target t fuel).isSome) ∧
    (∀ (target v : Nat) (t : Int) (fuel : Nat),
        0 < t → t.toNat ≤ fuel →
        countFiltering_sync (fun _ => v) target t fuel = some (decide (v = target)) ∧
        countFiltering_async (fun _ => v) target t fuel = some (decide (v = target))) := by
  constructor
  · intro pin target v t k fuel ht hc hf
    have hs := countFilteringAux_settles pin target v t k ht hc fuel 0 0
      (by omega) (by omega) (by omega)
    rcases Option.isSome_iff_exists.mp hs with ⟨p, hp⟩
    constructor <;> simp [countFiltering_sync, countFiltering_async, hp]
  · intro target v t fuel ht hf
    suffices h : countFiltering_sync (fun _ => v) target t fuel = some (decide (v = target)) by
      exact ⟨h, h⟩
    by_cases hvt : v = target
    · subst hvt
      obtain ⟨i, hi⟩ := countFilteringAux_const_match (fun _ => v) v t ht fuel 0 0
        (by omega) (by omega) (fun n _ => rfl) (by omega)
      simp only [countFiltering_sync, hi, Option.map_some']
      simp
    · obtain ⟨i, hi⟩ := countFilteringAux_const_mismatch (fun _ => v) target v t ht hvt
        fuel 0 0 (by omega) (by omega) (fun n _ => rfl) (by omega)
      simp only [countFiltering_sync, hi, Option.map_some']
      simp only [Option.some.injEq]
      rw [decide_eq_false (by omega), decide_eq_false hvt]

/-- C1, witness: the amended theorem applied at threshold `2` and the
constant-`1` stream with target `1`. -/
theorem countFiltering_terminates_on_settled_input_witness :
    countFiltering_sync (fun _ => 1) 1 2 2 = some (decide (1 = 1)) ∧
    countFiltering_async (fun _ => 1) 1 2 2 = some (decide (1 = 1)) :=
  countFiltering_terminates_on_settled_input.2 1 1 2 2 (by decide) (by decide)

/-- C2, counterexample.  A single opposite reading does not merely step the
counter one unit toward zero: from `cnt = 2` (target `1`), one reading of
`0` drives the counter to `-1`, not to `1`.  Observably: on the stream
`1,1,0,0,0,...` with threshold `3` the filter answers "not stable" after
only five samples (counter path `1, 2, -1, -2, -3`), which is impossible
under the claimed unit-decrement dynamics. -/
theorem countFiltering_step_resets_on_sign_flip :
    countFiltering_step 1 2 0 = -1 ∧ ((-1 : Int) ≠ 2 - 1) ∧
    countFiltering_sync (fun n => if n < 2 then 1 else 0) 1 3 5 = some false := by
  exact ⟨by decide, by decide, by decide⟩

/-- C2, amended.  The counter dynamics of `countFiltering` are: on a
reading equal to the target the counter increments by one when it is
nonnegative but snaps to `+1` from any negative value; on a differing
reading it decrements by one when nonpositive but snaps to `-1` from any
positive value; one step never leaves `[-t, t]`; and the loop returns
"stable at target" exactly when the counter reaches `+t` and "not stable"
exactly when it reaches `-t`. -/
theorem countFiltering_counter_dynamics :
    (∀ (target : Nat) (c : Int), 0 ≤ c → countFiltering_step target c target = c + 1) ∧
    (∀ (target : Nat) (c : Int), c < 0 → countFiltering_step target c target = 1) ∧
    (∀ (target r : Nat) (c : Int), r ≠ target → c ≤ 0 →
        countFiltering_step target c r = c - 1) ∧
    (∀ (target r : Nat) (c : Int), r ≠ target → 0 < c →
        countFiltering_step target c r = -1) ∧
    (∀ (target r : Nat) (t c : Int), 0 < t → -t < c → c < t →
        -t ≤ countFiltering_step target c r ∧ countFiltering_step target c r ≤ t) ∧
    (∀ (pin : Nat → Nat) (target : Nat) (t : Int) (fuel : Nat) (c : Int) (i : Nat),
        0 < t → countFilteringAux pin target t 0 0 fuel = some (c, i) →
        (c = t ∨ c = -t) ∧
        (countFiltering_sync pin target t fuel = some true ↔ c = t) ∧
        (countFiltering_sync pin target t fuel = some false ↔ c = -t)) := by
  refine ⟨?_, ?_, ?_, ?_, ?_, ?_⟩
  · intro target c h
    unfold countFiltering_step
    rw [if_pos rfl, if_pos h]
  · intro target c h
    unfold countFiltering_step
    rw [if_pos rfl, if_neg (by omega)]
  · intro target r c hr h
    unfold countFiltering_step
    rw [if_neg hr, if_pos h]
  · intro target r c hr h
    unfold countFiltering_step
    rw [if_neg hr, if_neg (by omega)]
  · intro target r t c ht h1 h2
    exact countFiltering_step_mem target t c r ht h1 h2
  · intro pin target t fuel c i ht h
    have hex := countFilteringAux_exit pin target t ht fuel 0 0 c i (by omega) (by omega) h
    refine ⟨hex, ?_, ?_⟩
    · simp only [countFiltering_sync, h, Option.map_some', Option.some.injEq,
        decide_eq_true_eq]
      constructor <;> intro hx <;> omega
    · simp only [countFiltering_sync, h, Option.map_some', Option.some.injEq]
      constructor
      · intro hx
        have hnle : ¬ (t ≤ c) := by
          intro hle
          rw [decide_eq_true hle] at hx
          exact Bool.noConfusion hx
        omega
      · intro hx
        rw [decide_eq_false (by omega)]

/-- C2, witness: the amended dynamics applied at concrete counters. -/
theorem countFiltering_counter_dynamics_witness :
    countFiltering_step 1 0 1 = 0 + 1 ∧ countFiltering_step 1 (-2) 1 = 1 :=
  ⟨countFiltering_counter_dynamics.1 1 0 (by decide),
   countFiltering_counter_dynamics.2.1 1 (-2) (by decide)⟩

/-! ## Claim C6: the long-press deadline loop -/

/-- When the clock reaches the deadline at iteration `n` (and not before),
the long-press loop returns a verdict within `n + 1` iterations. -/
lemma longPressLoop_returns (timeout : Int) (pressed : Nat → Bool)
    (clock : Nat → Int) :
    ∀ (fuel k n : Nat), k ≤ n → n < k + fuel →
      (∀ m, k ≤ m → m < n → clock (m + 1) < clock 0 + timeout) →
      clock 0 + timeout ≤ clock (n + 1) →
      (longPressLoop timeout pressed clock k fuel).isSome := by
  intro fuel
  induction fuel with
  | zero => intro k n h1 h2 _ _; omega
  | succ fuel ih =>
    intro k n h1 h2 hprev hn
    simp only [longPressLoop]
    by_cases hp : pressed k = false
    · rw [if_pos hp]; rfl
    · rw [if_neg hp]
      by_cases hk : k = n
      · subst hk
        rw [if_pos hn]
        rfl
      · rw [if_neg (not_le.mpr (hprev k le_rfl (by omega)))]
        exact ih (k + 1) n (by omega) (by omega)
          (fun m hm1 hm2 => hprev m (by omega) hm2) hn

/-- The long-press loop answers `true` exactly when every stable-press
poll up to the deadline iteration succeeds. -/
lemma longPressLoop_true_iff (timeout : Int) (pressed : Nat → Bool)
    (clock : Nat → Int) :
    ∀ (fuel k n : Nat), k ≤ n → n < k + fuel →
      (∀ m, k ≤ m → m < n → clock (m + 1) < clock 0 + timeout) →
      clock 0 + timeout ≤ clock (n + 1) →
      (longPressLoop timeout pressed clock k fuel = some true ↔
        ∀ j, k ≤ j → j ≤ n → pressed j = true) := by
  intro fuel
  induction fuel with
  | zero => intro k n h1 h2 _ _; omega
  | succ fuel ih =>
    intro k n h1 h2 hprev hn
    simp only [longPressLoop]
    by_cases hp : pressed k = false
    · rw [if_pos hp]
      constructor
      · intro hx
        exact absurd hx (by simp)
      · intro hall
        exact absurd (hall k le_rfl h1) (by simp [hp])
    · rw [if_neg hp]
      have hpk : pressed k = true := by
        cases h : pressed k
        · exact absurd h hp
        · rfl
      by_cases hk : k = n
      · subst hk
        rw [if_pos hn]
        constructor
        · intro _ j hj1 hj2
          have hjk : j = k := by omega
          subst hjk
          exact hpk
        · intro _
          rfl
      · rw [if_neg (not_le.mpr (hprev k le_rfl (by omega)))]
        rw [ih (k + 1) n (by omega) (by omega)
          (fun m hm1 hm2 => hprev m (by omega) hm2) hn]
        constructor
        · intro hall j hj1 hj2
          rcases Nat.eq_or_lt_of_le hj1 with rfl | hj
          · exact hpk
          · exact hall j (by omega) hj2
        · intro hall j hj1 hj2
          exact hall j (by omega) hj2

/-- C6.  After a detected to-pressed transition, with `timeout > 0` and a
clock that first reaches the deadline `clock 0 + timeout` at loop
iteration `n`: the monitor answers `true` exactly when every
`isStablyPressed` poll up to and including iteration `n` reports pressed,
and `false` exactly when some poll up to the deadline reports a release
(the release is seen before the deadline check of the same iteration, so
release wins a tie); the async monitor agrees with the sync one.  At one
poll per millisecond (`clock k = k`, `timeout = 5`): a hold of exactly
`timeout - 1` polls reports `false`, an uninterrupted hold reports
`true`. -/
theorem longPress_deadline_characterization :
    (∀ (timeout : Int) (pressed : Nat → Bool) (clock : Nat → Int) (n fuel : Nat),
        0 < timeout → n < fuel →
        (∀ m, m < n → clock (m + 1) < clock 0 + timeout) →
        clock 0 + timeout ≤ clock (n + 1) →
        (((OnLongPressEvent.monitor_sync timeout true pressed clock fuel).1 = some true ↔
            ∀ j, j ≤ n → pressed j = true) ∧
         ((OnLongPressEvent.monitor_sync timeout true pressed clock fuel).1 = some false ↔
            ¬ ∀ j, j ≤ n → pressed j = true) ∧
         OnLongPressEvent.monitor_async timeout true pressed clock fuel =
           OnLongPressEvent.monitor_sync timeout true pressed clock fuel)) ∧
    (OnLongPressEvent.monitor_sync 5 true (fun k => decide (k < 4))
        (fun k => (k : Int)) 6).1 = some false ∧
    (OnLongPressEvent.monitor_sync 5 true (fun _ => true)
        (fun k => (k : Int)) 6).1 = some true := by
  refine ⟨?_, by decide, by decide⟩
  intro timeout pressed clock n fuel ht hf hprev hn
  have hloop : (OnLongPressEvent.monitor_sync timeout true pressed clock fuel).1 =
      longPressLoop timeout pressed clock 0 fuel := by
    simp only [OnLongPressEvent.monitor_sync]
    rw [if_neg (by omega)]
    simp
  have hiff := longPressLoop_true_iff timeout pressed clock fuel 0 n (by omega)
    (by omega) (fun m hm1 hm2 => hprev m hm2) hn
  have hsome := longPressLoop_returns timeout pressed clock fuel 0 n (by omega)
    (by omega) (fun m hm1 hm2 => hprev m hm2) hn
  refine ⟨?_, ?_, rfl⟩
  · rw [hloop]
    rw [hiff]
    constructor
    · intro hall j hj
      exact hall j (by omega) hj
    · intro hall j _ hj
      exact hall j hj
  · rw [hloop]
    rcases Option.isSome_iff_exists.mp hsome with ⟨b, hb⟩
    rw [hb]
    rw [hb] at hiff
    cases b
    · constructor
      · intro _ hall
        exact absurd (hiff.mpr (fun j _ hj => hall j hj)) (by simp)
      · intro _
        rfl
    · constructor
      · intro hx
        exact absurd hx (by simp)
      · intro hall
        exact absurd (fun j hj => hiff.mp rfl j (by omega) hj) hall

/-- C6, witness: the characterization applied with `timeout = 5`, the
identity clock, deadline iteration `n = 4` and an uninterrupted hold. -/
theorem longPress_deadline_characterization_witness :
    (OnLongPressEvent.monitor_sync 5 true (fun _ => true)
        (fun k => (k : Int)) 6).1 = some true :=
  ((longPress_deadline_characterization.1 5 (fun _ => true) (fun k => (k : Int))
      4 6 (by decide) (by decide) (by decide) (by decide)).1).mpr
    (fun j _ => rfl)

/-! ## Claim C3: sync/async monitor equivalence -/

/-- C3, divergence evidence.  Threshold `1`, `times = 1`,
`timeout_ms = 5`, released signal `1`, pressed signal `0`, pin trace
`1, 0, 0, 1, 1, 1, ...` (a clean press that is already stably released
when the monitor's first release-wait begins), clock `0, 1, 2, ...`: the
sync monitor polls `isStablyReleased_sync`, sees the line stably released
at once and answers `some true`, while the async monitor polls
`isToStablyReleased_async`, never observes a pressed-to-released
transition, runs into the deadline and answers `some false`. -/
theorem multiClick_sync_async_verdicts_differ :
    (OnMultiClickEvent.monitor_sync 1 5 (fun n => if n = 1 ∨ n = 2 then 0 else 1)
        (fun k => (k : Int)) 1 0 1 50).1 = some true ∧
    (OnMultiClickEvent.monitor_async 1 5 (fun n => if n = 1 ∨ n = 2 then 0 else 1)
        (fun k => (k : Int)) 1 0 1 50).1 = some false := by
  exact ⟨by decide, by decide⟩

/-! ## Claim C7: misconfigured detectors degrade to constant false -/

/-- C7.  A LongPress detector with non-positive `timeout_ms`, and a
MultiClick detector with non-positive `times` or `timeout_ms`, answer
every `monitor_sync` / `monitor_async` call with `False` after logging
exactly one warning, whatever the pin, clock and transition inputs are;
the guard runs before any button interaction, so no such call can fail. -/
theorem misconfigured_detectors_return_false :
    (∀ (timeout : Int) (toPressed : Bool) (pressed : Nat → Bool)
        (clock : Nat → Int) (fuel : Nat), timeout ≤ 0 →
        OnLongPressEvent.monitor_sync timeout toPressed pressed clock fuel =
          (some false, 1) ∧
        OnLongPressEvent.monitor_async timeout toPressed pressed clock fuel =
          (some false, 1)) ∧
    (∀ (times timeout : Int) (pin : Nat → Nat) (clock : Nat → Int)
        (rel prs : Nat) (t : Int) (fuel : Nat), times ≤ 0 ∨ timeout ≤ 0 →
        OnMultiClickEvent.monitor_sync times timeout pin clock rel prs t fuel =
          (some false, 1) ∧
        OnMultiClickEvent.monitor_async times timeout pin clock rel prs t fuel =
          (some false, 1)) := by
  constructor
  · intro timeout toPressed pressed clock fuel h
    have hs : OnLongPressEvent.monitor_sync timeout toPressed pressed clock fuel =
        (some false, 1) := by
      simp only [OnLongPressEvent.monitor_sync]
      rw [if_pos h]
    exact ⟨hs, hs⟩
  · intro times timeout pin clock rel prs t fuel h
    constructor
    · simp only [OnMultiClickEvent.monitor_sync]
      rw [if_pos h]
    · simp only [OnMultiClickEvent.monitor_async]
      rw [if_pos h]

/-- C7, witness: both detectors applied at `timeout_ms = 0` (and
`times = 0`). -/
theorem misconfigured_detectors_return_false_witness :
    OnLongPressEvent.monitor_sync 0 true (fun _ => true) (fun k => (k : Int)) 3 =
      (some false, 1) ∧
    OnMultiClickEvent.monitor_sync 0 0 (fun _ => 1) (fun k => (k : Int)) 1 0 1 3 =
      (some false, 1) :=
  ⟨(misconfigured_detectors_return_false.1 0 true (fun _ => true)
      (fun k => (k : Int)) 3 (by decide)).1,
   (misconfigured_detectors_return_false.2 0 0 (fun _ => 1)
      (fun k => (k : Int)) 1 0 1 3 (Or.inl (by decide))).1⟩

/-! ## Claim C8: a to-pressed transition is consumed at most once -/

/-- A `StateDebounceButton.isToPressed` call that answers `True` leaves
the cached state at `PRESSED`. -/
lemma sdbIsToPressedCheck_true_last (pin : Nat → Nat) (rel prs : Nat) (s1 : SDB)
    (h : (StateDebounceButton.isToPressedCheck pin rel prs s1).1 = true) :
    (StateDebounceButton.isToPressedCheck pin rel prs s1).2.last = .PRESSED := by
  unfold StateDebounceButton.isToPressedCheck at h ⊢
  split at h
  · rename_i hc
    rw [if_pos hc]
    simp only [StateDebounceButton.isPressed, StateDebounceButton.getState] at h ⊢
    rw [beq_iff_eq] at h
    exact h
  · simp at h

/-- A `StateDebounceButton.isToPressed` call that answers `True` leaves
the cached state at `PRESSED` (lifted through the refresh step). -/
lemma sdbIsToPressed_true_last (pin : Nat → Nat) (rel prs : Nat) (s : SDB)
    (h : (StateDebounceButton.isToPressed pin rel prs s).1 = true) :
    (StateDebounceButton.isToPressed pin rel prs s).2.last = .PRESSED :=
  sdbIsToPressedCheck_true_last pin rel prs _ h

/-- With the cache at `PRESSED`, `StateDebounceButton.isToPressed`
answers `False` and changes nothing. -/
lemma sdbIsToPressed_stuck (pin : Nat → Nat) (rel prs : Nat) (s : SDB)
    (h : s.last = .PRESSED) :
    StateDebounceButton.isToPressed pin rel prs s = (false, s) := by
  unfold StateDebounceButton.isToPressed StateDebounceButton.refreshIfBouncing
    StateDebounceButton.isToPressedCheck
  simp [h]

/-- From a `PRESSED` cache, no later `isToPressed` call ever answers
`True` again. -/
lemma sdbToPressedCount_zero (pin : Nat → Nat) (rel prs : Nat) :
    ∀ (m : Nat) (s : SDB), s.last = .PRESSED →
      sdbToPressedCount pin rel prs s m = 0 := by
  intro m
  induction m with
  | zero => intro s _; rfl
  | succ m ih =>
    intro s h
    simp only [sdbToPressedCount, sdbIsToPressed_stuck pin rel prs s h]
    simpa using ih s h

/-- A run of `StateDebounceButton.isToPressed` calls answers `True` at
most once. -/
lemma sdbToPressedCount_le_one (pin : Nat → Nat) (rel prs : Nat) :
    ∀ (m : Nat) (s : SDB), sdbToPressedCount pin rel prs s m ≤ 1 := by
  intro m
  induction m with
  | zero => intro s; exact Nat.zero_le 1
  | succ m ih =>
    intro s
    simp only [sdbToPressedCount]
    cases hr : (StateDebounceButton.isToPressed pin rel prs s).1
    · simpa [hr] using ih (StateDebounceButton.isToPressed pin rel prs s).2
    · have hlast := sdbIsToPressed_true_last pin rel prs s hr
      simp [hr, sdbToPressedCount_zero pin rel prs m _ hlast]

/-- Once the pin reads pressed forever (from index `K`), an
`ImmediateDebounceButton.isToPressed` run answers `False` forever. -/
lemma idbToPressedCount_zero (pin : Nat → Nat) (rel prs K : Nat)
    (hne : rel ≠ prs) (hK : ∀ n, K ≤ n → pin n = prs) :
    ∀ (m idx : Nat), K ≤ idx → idbToPressedCount pin rel prs idx m = 0 := by
  intro m
  induction m with
  | zero => intro idx _; rfl
  | succ m ih =>
    intro idx hidx
    have hstep : ImmediateDebounceButton.isToPressed pin rel prs idx = (false, idx + 1) := by
      unfold ImmediateDebounceButton.isToPressed
      rw [hK idx hidx, if_neg (fun hh => hne hh.symm)]
    simp only [idbToPressedCount, hstep]
    simpa using ih (idx + 1) (by omega)

/-- On a single clean press trace, an `ImmediateDebounceButton.isToPressed`
run answers `True` at most once. -/
lemma idbToPressedCount_le_one (pin : Nat → Nat) (rel prs K : Nat)
    (hne : rel ≠ prs) (hrel : ∀ n, n < K → pin n = rel)
    (hK : ∀ n, K ≤ n → pin n = prs) :
    ∀ (m idx : Nat), idbToPressedCount pin rel prs idx m ≤ 1 := by
  intro m
  induction m with
  | zero => intro idx; exact Nat.zero_le 1
  | succ m ih =>
    intro idx
    simp only [idbToPressedCount]
    by_cases h1 : pin idx = rel
    · by_cases h2 : pin (idx + 1) = prs
      · have hstep : ImmediateDebounceButton.isToPressed pin rel prs idx = (true, idx + 2) := by
          unfold ImmediateDebounceButton.isToPressed
          rw [if_pos h1, if_pos h2]
        have hK2 : K ≤ idx + 2 := by
          by_contra hcon
          exact hne (((hrel (idx + 1) (by omega)).symm.trans h2))
        rw [hstep]
        rw [idbToPressedCount_zero pin rel prs K hne hK m (idx + 2) hK2]
        simp
      · have hstep : ImmediateDebounceButton.isToPressed pin rel prs idx = (false, idx + 2) := by
          unfold ImmediateDebounceButton.isToPressed
          rw [if_pos h1, if_neg h2]
        rw [hstep]
        simpa using ih (idx + 2)
    · have hstep : ImmediateDebounceButton.isToPressed pin rel prs idx = (false, idx + 1) := by
        unfold ImmediateDebounceButton.isToPressed
        rw [if_neg h1]
      rw [hstep]
      simpa using ih (idx + 1)

/-- If the wait loop of `isChangedStably` returns, the read that broke it
was not at the start level, and the returned index lies past it. -/
lemma waitWhileAt_some_spec (pin : Nat → Nat) (startv : Nat) :
    ∀ (fuel idx j : Nat), waitWhileAt pin startv idx fuel = some j →
      idx < j ∧ pin (j - 1) ≠ startv := by
  intro fuel
  induction fuel with
  | zero =>
    intro idx j h
    simp only [waitWhileAt] at h
    split at h
    · exact absurd h (by simp)
    · rename_i hc
      simp only [Option.some.injEq] at h
      subst h
      exact ⟨by omega, by simpa using hc⟩
  | succ fuel ih =>
    intro idx j h
    simp only [waitWhileAt] at h
    split at h
    · have := ih (idx + 1) j h
      exact ⟨by omega, this.2⟩
    · rename_i hc
      simp only [Option.some.injEq] at h
      subst h
      exact ⟨by omega, by simpa using hc⟩

/-- The `countFiltering` loop never rewinds the read index. -/
lemma countFilteringAux_idx_le (pin : Nat → Nat) (target : Nat) (t : Int) :
    ∀ (fuel : Nat) (cnt : Int) (idx : Nat) (c : Int) (i : Nat),
      countFilteringAux pin target t cnt idx fuel = some (c, i) → idx ≤ i := by
  intro fuel
  induction fuel with
  | zero =>
    intro cnt idx c i h
    simp only [countFilteringAux] at h
    split at h
    · exact absurd h (by simp)
    · simp only [Option.some.injEq, Prod.mk.injEq] at h
      omega
  | succ fuel ih =>
    intro cnt idx c i h
    simp only [countFilteringAux] at h
    split at h
    · have := ih _ _ _ _ h
      omega
    · simp only [Option.some.injEq, Prod.mk.injEq] at h
      omega

/-- A returning `isChangedStably` call either failed its immediate start
check, or consumed a read off the start level before finishing. -/
lemma isChangedStablyFrom_some_spec (pin : Nat → Nat) (startv endv : Nat)
    (t : Int) (idx fuel : Nat) (b : Bool) (i : Nat)
    (h : isChangedStablyFrom pin startv endv t idx fuel = some (b, i)) :
    (b = false ∧ i = idx + 1) ∨ (∃ j, idx < j ∧ pin (j - 1) ≠ startv ∧ j ≤ i) := by
  unfold isChangedStablyFrom at h
  split at h
  · simp only [Option.some.injEq, Prod.mk.injEq] at h
    exact Or.inl ⟨h.1.symm, h.2.symm⟩
  · rename_i hstart
    revert h
    cases hw : waitWhileAt pin startv (idx + 1) fuel with
    | none => intro h; exact absurd h (by simp)
    | some j =>
      intro h
      have h2 : (countFilteringAux pin endv t 0 j fuel).map
          (fun p => (decide (t ≤ p.1), p.2)) = some (b, i) := h
      have hspec := waitWhileAt_some_spec pin startv fuel (idx + 1) j hw
      cases haux : countFilteringAux pin endv t 0 j fuel with
      | none => rw [haux] at h2; exact absurd h2 (by simp)
      | some p =>
        rw [haux] at h2
        simp only [Option.map_some', Option.some.injEq, Prod.mk.injEq] at h2
        have hle := countFilteringAux_idx_le pin endv t fuel 0 j p.1 p.2
          (by rw [haux])
        exact Or.inr ⟨j, by omega, hspec.2, by omega⟩

/-- Once the pin reads pressed forever (from index `K`), a
`CountFilteringImmediateDebounceButton.isToPressed` run answers `False`
forever. -/
lemma cfibToPressedCount_zero (pin : Nat → Nat) (rel prs K : Nat) (t : Int)
    (fuel : Nat) (hne : rel ≠ prs) (hK : ∀ n, K ≤ n → pin n = prs) :
    ∀ (m idx : Nat), K ≤ idx → cfibToPressedCount pin rel prs t fuel idx m = 0 := by
  intro m
  induction m with
  | zero => intro idx _; rfl
  | succ m ih =>
    intro idx hidx
    have hstep : isChangedStablyFrom pin rel prs t idx fuel = some (false, idx + 1) := by
      unfold isChangedStablyFrom
      rw [if_pos (by rw [hK idx hidx]; exact fun hh => hne hh.symm)]
    simp only [cfibToPressedCount, hstep]
    simpa using ih (idx + 1) (by omega)

/-- On a single clean press trace, a
`CountFilteringImmediateDebounceButton.isToPressed` run answers `True`
at most once. -/
lemma cfibToPressedCount_le_one (pin : Nat → Nat) (rel prs K : Nat) (t : Int)
    (fuel : Nat) (hne : rel ≠ prs) (hrel : ∀ n, n < K → pin n = rel)
    (hK : ∀ n, K ≤ n → pin n = prs) :
    ∀ (m idx : Nat), cfibToPressedCount pin rel prs t fuel idx m ≤ 1 := by
  intro m
  induction m with
  | zero => intro idx; exact Nat.zero_le 1
  | succ m ih =>
    intro idx
    cases hstep : isChangedStablyFrom pin rel prs t idx fuel with
    | none => simp [cfibToPressedCount, hstep]
    | some r =>
      obtain ⟨b, i⟩ := r
      cases b
      · simp only [cfibToPressedCount, hstep]
        simpa using ih i
      · rcases isChangedStablyFrom_some_spec pin rel prs t idx fuel true i hstep with
          ⟨hb, _⟩ | ⟨j, hj1, hj2, hj3⟩
        · exact absurd hb (by simp)
        · have hKj : K ≤ j - 1 := by
            by_contra hcon
            exact hj2 (hrel (j - 1) (by omega))
          simp only [cfibToPressedCount, hstep]
          rw [cfibToPressedCount_zero pin rel prs K t fuel hne hK m i (by omega)]
          simp

/-- Each `True` answer of a consumed boolean flag uses up one `set`
event. -/
lemma flagQueryTrues_le (es : List FlagEvent) :
    ∀ b, flagQueryTrues b es ≤ (if b then 1 else 0) + flagSets es := by
  induction es with
  | nil => intro b; cases b <;> simp [flagQueryTrues, flagSets]
  | cons e es ih =>
    intro b
    have h1 := ih true
    have h0 := ih false
    simp at h1 h0
    cases e
    · simp only [flagQueryTrues, flagSets]
      cases b <;> simp <;> omega
    · simp only [flagQueryTrues, flagSets]
      cases b <;> simp <;> omega
    · simp only [flagQueryTrues, flagSets]
      cases b <;> simp <;> omega

/-- C8.  On a single clean press trace (readings at the released level
before sample `K` and at the pressed level from `K` on), each detector's
own `isToPressed` reports `True` at most once across any number of calls:
for `StateDebounceButton` (the `PRESSED` cache swallows all later
reports), for `ImmediateDebounceButton`, and for
`CountFilteringImmediateDebounceButton`; and for
`InterruptDrivenStateDebounceButton`, whose flag-consuming `isToPressed`
answers `True` at most as often as the debounce handler raised the flag —
at most once per physical press. -/
theorem toPressed_reported_at_most_once :
    (∀ (pin : Nat → Nat) (rel prs K : Nat) (s : SDB) (m : Nat),
        rel ≠ prs → (∀ n, n < K → pin n = rel) → (∀ n, K ≤ n → pin n = prs) →
        sdbToPressedCount pin rel prs s m ≤ 1) ∧
    (∀ (pin : Nat → Nat) (rel prs K idx m : Nat),
        rel ≠ prs → (∀ n, n < K → pin n = rel) → (∀ n, K ≤ n → pin n = prs) →
        idbToPressedCount pin rel prs idx m ≤ 1) ∧
    (∀ (pin : Nat → Nat) (rel prs K : Nat) (t : Int) (fuel idx m : Nat),
        rel ≠ prs → (∀ n, n < K → pin n = rel) → (∀ n, K ≤ n → pin n = prs) →
        cfibToPressedCount pin rel prs t fuel idx m ≤ 1) ∧
    (∀ es : List FlagEvent, flagSets es ≤ 1 → flagQueryTrues false es ≤ 1) := by
  refine ⟨?_, ?_, ?_, ?_⟩
  · intro pin rel prs K s m _ _ _
    exact sdbToPressedCount_le_one pin rel prs m s
  · intro pin rel prs K idx m hne hrel hK
    exact idbToPressedCount_le_one pin rel prs K hne hrel hK m idx
  · intro pin rel prs K t fuel idx m hne hrel hK
    exact cfibToPressedCount_le_one pin rel prs K t fuel hne hrel hK m idx
  · intro es hs
    have := flagQueryTrues_le es false
    simp at this
    omega

/-- C8, witness: all four variants applied on the concrete clean press
trace `1,1,1,0,0,0,...` (released `1`, pressed `0`, transition at sample
`K = 3`), and the flag trace set-query-query-clear. -/
theorem toPressed_reported_at_most_once_witness :
    sdbToPressedCount (fun n => if n < 3 then 1 else 0) 1 0 ⟨.BOUNCING, 0⟩ 5 ≤ 1 ∧
    idbToPressedCount (fun n => if n < 3 then 1 else 0) 1 0 0 5 ≤ 1 ∧
    cfibToPressedCount (fun n => if n < 3 then 1 else 0) 1 0 2 20 0 5 ≤ 1 ∧
    flagQueryTrues false [FlagEvent.set, FlagEvent.query, FlagEvent.query,
      FlagEvent.clear] ≤ 1 :=
  ⟨toPressed_reported_at_most_once.1 (fun n => if n < 3 then 1 else 0) 1 0 3
      ⟨.BOUNCING, 0⟩ 5 (by decide)
      (fun n hn => by simp [hn]) (fun n hn => by simp [show ¬ n < 3 by omega]),
   toPressed_reported_at_most_once.2.1 (fun n => if n < 3 then 1 else 0) 1 0 3 0 5
      (by decide) (fun n hn => by simp [hn]) (fun n hn => by simp [show ¬ n < 3 by omega]),
   toPressed_reported_at_most_once.2.2.1 (fun n => if n < 3 then 1 else 0) 1 0 3 2 20 0 5
      (by decide) (fun n hn => by simp [hn]) (fun n hn => by simp [show ¬ n < 3 by omega]),
   toPressed_reported_at_most_once.2.2.2 [FlagEvent.set, FlagEvent.query,
      FlagEvent.query, FlagEvent.clear] (by decide)⟩

/-! ## Claim C4: initial state of the interrupt-driven button -/

/-- C4, counterexample.  The constructor of
`InterruptDrivenStateDebounceButton` initializes `_current_state` to
`STATE.BOUNCING` (line 155), so before any edge interrupt or
debounce-timer expiry `getState` does not return `RELEASED` and
`isReleased` does not return `True`. -/
theorem interrupt_button_initially_not_released :
    InterruptDrivenStateDebounceButton.getState
      InterruptDrivenStateDebounceButton.initState ≠ .RELEASED ∧
    InterruptDrivenStateDebounceButton.isReleased
      InterruptDrivenStateDebounceButton.initState ≠ true := by
  exact ⟨by decide, by decide⟩

/-- C4, amended.  A freshly constructed (field-initialized)
`InterruptDrivenStateDebounceButton` is in state `BOUNCING`, not
`RELEASED`: at the first observation `getState` returns `BOUNCING` and
`isReleased` returns `False` (and both cached states start `BOUNCING`,
with every transition flag down). -/
theorem interrupt_button_initially_bouncing :
    InterruptDrivenStateDebounceButton.getState
      InterruptDrivenStateDebounceButton.initState = .BOUNCING ∧
    InterruptDrivenStateDebounceButton.isReleased
      InterruptDrivenStateDebounceButton.initState = false ∧
    InterruptDrivenStateDebounceButton.initState.last = .BOUNCING ∧
    InterruptDrivenStateDebounceButton.initState.toPressed_flag = false ∧
    InterruptDrivenStateDebounceButton.initState.toReleased_flag = false := by
  exact ⟨by decide, by decide, by decide, by decide, by decide⟩

/-! ## Claim C5: handler exceptions at the dispatch boundary -/

/-- C5, counterexample.  With the event firing at once and a handler that
raises on its first invocation, `EventHandler.monitor_sync` terminates at
iteration `0` — the exception is not caught at the dispatch boundary —
while the same loop with a normally returning handler is still polling
after the same two iterations; the loop states differ. -/
theorem handler_exception_terminates_poll_loop :
    EventHandler.monitor_syncRun (fun _ => true) (fun _ => .error ()) 0 2 =
      .crashed 0 ∧
    EventHandler.monitor_syncRun (fun _ => true) (fun _ => .ok ()) 0 2 =
      .running 2 ∧
    LoopOutcome.crashed 0 ≠ LoopOutcome.running 2 := by
  exact ⟨rfl, rfl, by decide⟩

/-- C5, amended.  `EventHandler.monitor_sync` / `monitor_async` invoke
the handler with no `try`/`except` (exception support is an explicit
`TODO` in the source): the loop dies exactly at the first iteration whose
event fires with a raising handler, and otherwise keeps polling.  In
`AsyncListenerSyncHandler.listen` the handler runs on a freshly spawned
thread, so that listen loop itself always keeps polling — but no failure
is caught or logged at the dispatch boundary there either. -/
theorem handler_exception_crash_characterization :
    (∀ (event : Nat → Bool) (handler : Nat → Except Unit Unit) (fuel k j : Nat),
        EventHandler.monitor_syncRun event handler k fuel = .crashed j ↔
          k ≤ j ∧ j < k + fuel ∧ event j = true ∧ handler j = .error () ∧
            ∀ m, k ≤ m → m < j → (event m = true → handler m = .ok ())) ∧
    (∀ (listener : Nat → Bool) (fuel k : Nat),
        (AsyncListenerSyncHandler.listenRun listener k fuel).1 =
          .running (k + fuel)) := by
  constructor
  · intro event handler fuel
    induction fuel with
    | zero =>
      intro k j
      simp only [EventHandler.monitor_syncRun]
      constructor
      · intro h
        exact absurd h (by simp)
      · intro h
        omega
    | succ fuel ih =>
      intro k j
      simp only [EventHandler.monitor_syncRun]
      by_cases he : event k
      · rw [if_pos he]
        cases hh : handler k with
        | error e =>
          obtain rfl : e = () := rfl
          constructor
          · intro h
            have hjk : j = k := by
              cases h
              rfl
            subst hjk
            exact ⟨le_rfl, by omega, he, hh,
              fun m hm1 hm2 _ => absurd (by omega) (Nat.not_lt.mpr hm1)⟩
          · intro ⟨h1, h2, h3, h4, h5⟩
            by_cases hjk : j = k
            · subst hjk
              rfl
            · have := h5 k le_rfl (by omega) he
              rw [hh] at this
              exact absurd this (by simp)
        | ok u =>
          obtain rfl : u = () := rfl
          rw [ih (k + 1) j]
          constructor
          · intro ⟨h1, h2, h3, h4, h5⟩
            exact ⟨by omega, by omega, h3, h4,
              fun m hm1 hm2 hev => by
                by_cases hmk : m = k
                · subst hmk
                  exact hh
                · exact h5 m (by omega) hm2 hev⟩
          · intro ⟨h1, h2, h3, h4, h5⟩
            have hjk : j ≠ k := by
              intro hjk
              subst hjk
              rw [h4] at hh
              exact Except.noConfusion hh
            exact ⟨by omega, by omega, h3, h4,
              fun m hm1 hm2 hev => h5 m (by omega) hm2 hev⟩
      · rw [if_neg he]
        rw [ih (k + 1) j]
        constructor
        · intro ⟨h1, h2, h3, h4, h5⟩
          exact ⟨by omega, by omega, h3, h4,
            fun m hm1 hm2 hev => by
              by_cases hmk : m = k
              · subst hmk
                exact absurd hev (by simp [he])
              · exact h5 m (by omega) hm2 hev⟩
        · intro ⟨h1, h2, h3, h4, h5⟩
          have hjk : j ≠ k := by
            intro hjk
            subst hjk
            exact he (by simp [h3])
          exact ⟨by omega, by omega, h3, h4,
            fun m hm1 hm2 hev => h5 m (by omega) hm2 hev⟩
  · intro listener fuel
    induction fuel with
    | zero => intro k; rfl
    | succ fuel ih =>
      intro k
      simp only [AsyncListenerSyncHandler.listenRun, ih (k + 1)]
      congr 1
      omega

/-! ## Claim C9: stopping a binding is idempotent -/

/-- C9.  `EventHandler.stop` only clears the `enabled` flag and
`ListenerHandler.deactivate` only clears the `active` flag; in either
scheduling regime, from every binding state, a second call is a no-op on
an already-stopped binding, leaving exactly the state one call leaves,
and (being a total field update) raises nothing. -/
theorem stop_deactivate_idempotent :
    (∀ (ε η : Type) (s : EventHandlerState ε η),
        EventHandler.stop (EventHandler.stop s) = EventHandler.stop s) ∧
    (∀ (l h : Type) (s : ListenerHandlerState l h),
        ListenerHandler.deactivate (ListenerHandler.deactivate s) =
          ListenerHandler.deactivate s) :=
  ⟨fun _ _ _ => rfl, fun _ _ _ => rfl⟩

/-! ## Claim C10: button construction raises AttributeError -/

/-- C10.  For every pin, released-signal and timing argument, constructing
any button of the current `Device/Button.py` module fails:
`BaseButton.__init__` resolves `Digital.SIGNAL.inverse`, `SIGNAL` defines
only the constants `HIGH` and `LOW`, so an `AttributeError` is raised
before any constructor completes — for `BaseButton` itself and for all
four subclasses, each of which calls `super().__init__` first. -/
theorem button_construction_raises_attribute_error :
    ∀ (pin rel : Nat) (interval_ms threshold : Int),
      BaseButton.init pin rel interval_ms = .error .attributeError ∧
      ImmediateDebounceButton.init pin rel interval_ms = .error .attributeError ∧
      CountFilteringImmediateDebounceButton.init pin rel interval_ms threshold =
        .error .attributeError ∧
      StateDebounceButton.init pin rel interval_ms = .error .attributeError ∧
      InterruptDrivenStateDebounceButton.init pin rel interval_ms =
        .error .attributeError :=
  fun _ _ _ _ => ⟨rfl, rfl, rfl, rfl, rfl⟩
